import Mathlib

/-!
# webdev-api: the weather widget of `app.js`

A shallow embedding of `app.js` and the properties of its request
orchestration and data shaping.

Modelling conventions.

* A JavaScript value that the program tests for truthiness is an `Option`:
  `none` is a falsy value (`null`, `undefined`, `false`, `0`, `''`), `some`
  a truthy object. A member whose absence would make a later member access
  fault is an `Option` as well.
* An `async` function is run to completion in program order: every `await`
  is the point where the awaited operation settles. The event trace of the
  state records each request and the moment it settles.
* A call that may throw returns a `Completion`; the state changes made
  before the throw are kept.
* A number is the decimal it is written as (`Decimal`); the binary rounding
  of doubles is not modelled. `console` output is not modelled.
* The inner HTML of a container is kept as the data its template is filled
  with (`View`), not as text.
* A string is a sequence of Unicode scalar values; lone surrogates, on which
  `encodeURIComponent` throws, are not modelled.
-/

namespace App

/-! ## Values -/

/-- A finite decimal number `mantissa * 10 ^ (-scale)`, as in a JSON or
source literal: `51.5074` is `⟨515074, 4⟩`. -/
structure Decimal where
  mantissa : Int
  scale : Nat
  deriving DecidableEq, Repr

/-- `Math.round`: the nearest integer, a tie going to the greater one. -/
def mathRound (x : Decimal) : Int :=
  (2 * x.mantissa + 10 ^ x.scale) / (2 * 10 ^ x.scale)

/-- A thrown `Error`, of which the program reads only `message`. -/
structure JSError where
  message : String
  deriving DecidableEq, Repr

/-- How a call ends: with a value, or with a thrown error (for an `async`
function: a fulfilled or a rejected promise). -/
inductive Completion (α : Type) where
  | normal (value : α)
  | throw (error : JSError)
  deriving DecidableEq, Repr

/-- The `{ desc, icon }` entries of `getWeatherDescription`. -/
structure WeatherInfo where
  desc : String
  icon : String
  deriving DecidableEq, Repr

/-- The object literal `weather` of `getWeatherDescription`, key by key. -/
def weather : List (Int × WeatherInfo) :=
  [ (0, ⟨"Clear sky", "☀️"⟩),
    (1, ⟨"Mainly clear", "🌤️"⟩),
    (2, ⟨"Partly cloudy", "⛅"⟩),
    (3, ⟨"Overcast", "☁️"⟩),
    (45, ⟨"Foggy", "🌫️"⟩),
    (48, ⟨"Foggy", "🌫️"⟩),
    (51, ⟨"Light drizzle", "🌦️"⟩),
    (53, ⟨"Drizzle", "🌦️"⟩),
    (55, ⟨"Heavy drizzle", "🌧️"⟩),
    (61, ⟨"Light rain", "🌧️"⟩),
    (63, ⟨"Rain", "🌧️"⟩),
    (65, ⟨"Heavy rain", "⛈️"⟩),
    (71, ⟨"Light snow", "🌨️"⟩),
    (73, ⟨"Snow", "❄️"⟩),
    (75, ⟨"Heavy snow", "❄️"⟩),
    (80, ⟨"Rain showers", "🌦️"⟩),
    (95, ⟨"Thunderstorm", "⛈️"⟩) ]

/-- The right operand of `||` in `getWeatherDescription`. -/
def unknownWeather : WeatherInfo := ⟨"Unknown", "🌡️"⟩

/-- `getWeatherDescription(code)` for an integer `code`:
`weather[code] || { desc: 'Unknown', icon: '🌡️' }`. Every entry of `weather`
is an object, hence truthy, so `||` takes its right operand exactly when the
key is absent. -/
def getWeatherDescription (code : Int) : WeatherInfo :=
  match weather.lookup code with
  | some info => info
  | none => unknownWeather

/-! ## API data

A member is an `Option` where the program tests it or would fault on its
absence; the other members are read into templates only. -/

/-- The `current_weather` object of a forecast response. -/
structure CurrentWeather where
  temperature : Decimal
  windspeed : Decimal
  winddirection : Decimal
  weathercode : Int
  deriving DecidableEq, Repr

/-- The `daily` object of a forecast response: four parallel arrays. A
member that is `none` is absent, so indexing it faults. -/
structure Daily where
  time : Option (List String)
  weathercode : Option (List Int)
  temperature_2m_max : Option (List Decimal)
  temperature_2m_min : Option (List Decimal)
  deriving DecidableEq, Repr

/-- A truthy forecast response body. -/
structure WeatherData where
  current_weather : Option CurrentWeather
  daily : Option Daily
  deriving DecidableEq, Repr

/-- An element of the geocoding `results`. -/
structure Location where
  name : String
  country : String
  latitude : Decimal
  longitude : Decimal
  deriving DecidableEq, Repr

/-- A geocoding response body: JSON `null`, on which `data.results` faults,
or any other value with its `results` member (`none`: absent or falsy), an
array whose elements are locations or falsy. -/
inductive GeocodingBody where
  | null
  | value (results : Option (List (Option Location)))
  deriving DecidableEq, Repr

/-- An entry of `POPULAR_CITIES`. -/
structure City where
  name : String
  lat : Decimal
  lon : Decimal
  country : String
  deriving DecidableEq, Repr

/-- The module constant `POPULAR_CITIES`. -/
def POPULAR_CITIES : List City :=
  [ ⟨"London", ⟨515074, 4⟩, ⟨-1278, 4⟩, "UK"⟩,
    ⟨"New York", ⟨407128, 4⟩, ⟨-740060, 4⟩, "USA"⟩,
    ⟨"Tokyo", ⟨356762, 4⟩, ⟨1396503, 4⟩, "Japan"⟩,
    ⟨"Paris", ⟨488566, 4⟩, ⟨23522, 4⟩, "France"⟩,
    ⟨"Sydney", ⟨-338688, 4⟩, ⟨1512093, 4⟩, "Australia"⟩,
    ⟨"Dubai", ⟨252048, 4⟩, ⟨552708, 4⟩, "UAE"⟩,
    ⟨"Singapore", ⟨13521, 4⟩, ⟨1038198, 4⟩, "Singapore"⟩,
    ⟨"Los Angeles", ⟨340522, 4⟩, ⟨-1182437, 4⟩, "USA"⟩,
    ⟨"Hong Kong", ⟨223193, 4⟩, ⟨1141694, 4⟩, "China"⟩,
    ⟨"Manila", ⟨145995, 4⟩, ⟨1209842, 4⟩, "Philippines"⟩ ]

/-- The object `{ ...city, weather: data }` pushed by `loadPopularCities`. -/
structure CityData where
  city : City
  weather : WeatherData
  deriving DecidableEq, Repr

/-! ## The network -/

/-- A `Response`, of which the program reads `ok`, `status` and `json()`
(which rejects when the body is not JSON). -/
structure HttpResponse (β : Type) where
  ok : Bool
  status : Nat
  json : Completion β

/-- What the outside world answers. `forecast t lat lon` is the outcome of
the forecast request issued at trace position `t`: `fetch` rejects (a
network error) or resolves with a response whose body is falsy (`none`) or
a truthy value; `geocoding t name` likewise for a geocoding request. -/
structure Network where
  forecast : Nat → Decimal → Decimal → Completion (HttpResponse (Option WeatherData))
  geocoding : Nat → String → Completion (HttpResponse GeocodingBody)

/-- What the event trace records: a request being issued (with the
parameters that vary in its URL) and the last issued request settling. -/
inductive Event where
  | geocoding (name : String)
  | forecast (latitude longitude : Decimal)
  | settled
  deriving DecidableEq, Repr

/-! ## The page -/

/-- The filled template of `displayCurrentWeather`. -/
structure CurrentCard where
  name : String
  country : String
  weatherInfo : WeatherInfo
  temperature : Int
  windspeed : Decimal
  winddirection : Decimal
  deriving DecidableEq, Repr

/-- One filled template of `displayForecast`: `day` is the element of
`time` the date label is formatted from; a temperature is `none` when
`Math.round` received `undefined` (and gave `NaN`). -/
structure DayCard where
  day : String
  weatherInfo : WeatherInfo
  max : Option Int
  min : Option Int
  deriving DecidableEq, Repr

/-- One filled template of `displayCities`. -/
structure CityCard where
  name : String
  country : String
  weatherInfo : WeatherInfo
  temperature : Int
  windspeed : Decimal
  deriving DecidableEq, Repr

/-- The inner HTML of a container: a paragraph of text, or filled
templates. -/
inductive View (α : Type) where
  | message (text : String)
  | content (value : α)
  deriving DecidableEq, Repr

/-- The value of the module variable `currentCity`: `''` until a search
resolves a location. -/
inductive CurrentCity where
  | emptyString
  | location (cityData : Location)
  deriving DecidableEq, Repr

/-- The value of the module variable `forecastData`: `[]` until
`loadForecast` stores a `daily` object. -/
inductive ForecastData where
  | emptyArray
  | series (daily : Daily)
  deriving DecidableEq, Repr

/-- The module variables, the parts of the document the program reads or
writes, and the event trace. -/
structure State where
  currentCity : CurrentCity
  forecastData : ForecastData
  citySearch : String
  loadingSpinnerHidden : Bool
  errorAlertHidden : Bool
  errorMessage : String
  currentWeatherContainer : View CurrentCard
  forecastContainer : View (List DayCard)
  citiesContainer : View (List CityCard)
  trace : List Event
  deriving DecidableEq, Repr

/-- The page as loaded, before any handler ran; the markup of the
containers is not part of `app.js` and is a parameter. -/
def State.initial (currentWeather : View CurrentCard) (forecast : View (List DayCard))
    (cities : View (List CityCard)) : State :=
  { currentCity := .emptyString, forecastData := .emptyArray, citySearch := "",
    loadingSpinnerHidden := true, errorAlertHidden := true, errorMessage := "",
    currentWeatherContainer := currentWeather, forecastContainer := forecast,
    citiesContainer := cities, trace := [] }

/-- The `TypeError` of reading `member` of `base`, which is `undefined` or
`null`. -/
def typeError (base member : String) : JSError :=
  ⟨"Cannot read properties of " ++ base ++ " (reading '" ++ member ++ "')"⟩

def showLoading (s : State) : State := { s with loadingSpinnerHidden := false }

def hideLoading (s : State) : State := { s with loadingSpinnerHidden := true }

def showError (message : String) (s : State) : State :=
  { s with errorMessage := message, errorAlertHidden := false }

def hideError (s : State) : State := { s with errorAlertHidden := true }

/-- The awaited `fetch(url)` of `fetchWeather`: the request is issued, then
settles with what the network answers. -/
def fetchForecast (net : Network) (lat lon : Decimal) (s : State) :
    Completion (HttpResponse (Option WeatherData)) × State :=
  (net.forecast s.trace.length lat lon,
    { s with trace := s.trace ++ [Event.forecast lat lon, Event.settled] })

/-- The awaited `fetch(url)` of `searchCity`. -/
def fetchGeocoding (net : Network) (cityName : String) (s : State) :
    Completion (HttpResponse GeocodingBody) × State :=
  (net.geocoding s.trace.length cityName,
    { s with trace := s.trace ++ [Event.geocoding cityName, Event.settled] })

/-! ## The operations of `app.js` -/

/-- The `try` block of `fetchWeather`. -/
def fetchWeatherTry (net : Network) (lat lon : Decimal) (s : State) :
    Completion (Option WeatherData) × State :=
  match fetchForecast net lat lon (showLoading s) with
  | (.throw error, s1) => (.throw error, s1)
  | (.normal response, s1) =>
    if !response.ok then
      (.throw ⟨"HTTP " ++ toString response.status⟩, s1)
    else
      match response.json with
      | .throw error => (.throw error, s1)
      | .normal data => (.normal data, hideLoading s1)

/-- `fetchWeather(lat, lon)`: the `try` block, and on a throw the `catch`
block, which returns `null`. -/
def fetchWeather (net : Network) (lat lon : Decimal) (s : State) :
    Completion (Option WeatherData) × State :=
  match fetchWeatherTry net lat lon s with
  | (.normal data, s1) => (.normal data, s1)
  | (.throw error, s1) =>
    (.normal none, showError ("Failed to load weather: " ++ error.message) (hideLoading s1))

/-- The `try` block of `searchCity`. -/
def searchCityTry (net : Network) (cityName : String) (s : State) :
    Completion (Option Location) × State :=
  match fetchGeocoding net cityName s with
  | (.throw error, s1) => (.throw error, s1)
  | (.normal response, s1) =>
    if !response.ok then
      (.throw ⟨"HTTP " ++ toString response.status⟩, s1)
    else
      match response.json with
      | .throw error => (.throw error, s1)
      | .normal .null => (.throw (typeError "null" "results"), s1)
      | .normal (.value none) => (.normal none, s1)
      | .normal (.value (some results)) =>
        if results.length > 0 then (.normal (results[0]?).join, s1)
        else (.normal none, s1)

/-- `searchCity(cityName)`: the `try` block, and on a throw the `catch`
block, which returns `null`. -/
def searchCity (net : Network) (cityName : String) (s : State) :
    Completion (Option Location) × State :=
  match searchCityTry net cityName s with
  | (.normal cityData, s1) => (.normal cityData, s1)
  | (.throw _, s1) => (.normal none, s1)

/-- `displayCurrentWeather(data, cityData)`; reading `current.weathercode`
faults when `data.current_weather` is absent. -/
def displayCurrentWeather (data : WeatherData) (cityData : Location) (s : State) :
    Completion Unit × State :=
  match data.current_weather with
  | none => (.throw (typeError "undefined" "weathercode"), s)
  | some current =>
    let weatherInfo := getWeatherDescription current.weathercode
    let card : CurrentCard :=
      { name := cityData.name, country := cityData.country, weatherInfo := weatherInfo,
        temperature := mathRound current.temperature, windspeed := current.windspeed,
        winddirection := current.winddirection }
    (.normal (), { s with currentWeatherContainer := .content card })

/-- The callback of `map` in `displayForecast`, for element `day` at
`index`. An index past the end of an array reads `undefined`, for which
`getWeatherDescription` gives its fallback and `Math.round` gives `NaN`;
indexing an absent array faults. -/
def dayCard (forecastData : Daily) (day : String) (index : Nat) : Completion DayCard :=
  match forecastData.weathercode with
  | none => .throw (typeError "undefined" (toString index))
  | some weathercode =>
    let weatherInfo :=
      match weathercode[index]? with
      | some code => getWeatherDescription code
      | none => unknownWeather
    match forecastData.temperature_2m_max with
    | none => .throw (typeError "undefined" (toString index))
    | some temperature_2m_max =>
      match forecastData.temperature_2m_min with
      | none => .throw (typeError "undefined" (toString index))
      | some temperature_2m_min =>
        .normal
          { day := day, weatherInfo := weatherInfo,
            max := (temperature_2m_max[index]?).map mathRound,
            min := (temperature_2m_min[index]?).map mathRound }

/-- The `map` of `displayForecast` over the sliced days, the first of which
has index `index`. -/
def dayCards (forecastData : Daily) : List String → Nat → Completion (List DayCard)
  | [], _ => .normal []
  | day :: days, index =>
    match dayCard forecastData day index with
    | .throw error => .throw error
    | .normal card =>
      match dayCards forecastData days (index + 1) with
      | .throw error => .throw error
      | .normal cards => .normal (card :: cards)

/-- `displayForecast()`: the placeholder when `forecastData.time` is
absent, else the cards of `forecastData.time.slice(0, 7)`. -/
def displayForecast (s : State) : Completion Unit × State :=
  match s.forecastData with
  | .emptyArray =>
    (.normal (), { s with forecastContainer := .message "Search for a city to see the forecast" })
  | .series forecastData =>
    match forecastData.time with
    | none =>
      (.normal (),
        { s with forecastContainer := .message "Search for a city to see the forecast" })
    | some time =>
      match dayCards forecastData (time.take 7) 0 with
      | .throw error => (.throw error, s)
      | .normal cards => (.normal (), { s with forecastContainer := .content cards })

/-- `loadForecast(lat, lon)`. -/
def loadForecast (net : Network) (lat lon : Decimal) (s : State) : Completion Unit × State :=
  match fetchWeather net lat lon s with
  | (.throw error, s1) => (.throw error, s1)
  | (.normal none, s1) => (.normal (), s1)
  | (.normal (some data), s1) =>
    match data.daily with
    | none => (.normal (), s1)
    | some daily => displayForecast { s1 with forecastData := .series daily }

/-- The callback of `map` in `displayCities`; reading `current.weathercode`
faults when `city.weather.current_weather` is absent. -/
def cityCard (city : CityData) : Completion CityCard :=
  match city.weather.current_weather with
  | none => .throw (typeError "undefined" "weathercode")
  | some current =>
    let weatherInfo := getWeatherDescription current.weathercode
    .normal
      { name := city.city.name, country := city.city.country, weatherInfo := weatherInfo,
        temperature := mathRound current.temperature, windspeed := current.windspeed }

/-- The `map` of `displayCities`. -/
def cityCards : List CityData → Completion (List CityCard)
  | [] => .normal []
  | city :: cities =>
    match cityCard city with
    | .throw error => .throw error
    | .normal card =>
      match cityCards cities with
      | .throw error => .throw error
      | .normal cards => .normal (card :: cards)

/-- `displayCities(cities)`. -/
def displayCities (cities : List CityData) (s : State) : Completion Unit × State :=
  if cities.length = 0 then
    (.normal (), { s with citiesContainer := .message "No city data available" })
  else
    match cityCards cities with
    | .throw error => (.throw error, s)
    | .normal cards => (.normal (), { s with citiesContainer := .content cards })

/-- The `for (const city of ...)` loop of `loadPopularCities` over the
cities still to visit, `citiesData` being the array built so far. -/
def loadPopularCitiesLoop (net : Network) :
    List City → List CityData → State → Completion (List CityData) × State
  | [], citiesData, s => (.normal citiesData, s)
  | city :: cities, citiesData, s =>
    match fetchWeather net city.lat city.lon s with
    | (.throw error, s1) => (.throw error, s1)
    | (.normal (some data), s1) =>
      loadPopularCitiesLoop net cities (citiesData ++ [{ city := city, weather := data }]) s1
    | (.normal none, s1) => loadPopularCitiesLoop net cities citiesData s1

/-- `loadPopularCities()`. The list the loop runs over, the module constant
`POPULAR_CITIES` in the source, is the argument `cities`. -/
def loadPopularCities (net : Network) (cities : List City) (s : State) :
    Completion Unit × State :=
  match loadPopularCitiesLoop net cities []
      { s with citiesContainer := .message "Loading popular cities..." } with
  | (.throw error, s1) => (.throw error, s1)
  | (.normal citiesData, s1) => displayCities citiesData s1

/-- The code points `String.prototype.trim` strips: ECMAScript `WhiteSpace`
and `LineTerminator`. -/
def isWhiteSpace (c : Char) : Bool :=
  c.toNat = 0x0009 || c.toNat = 0x000A || c.toNat = 0x000B || c.toNat = 0x000C ||
  c.toNat = 0x000D || c.toNat = 0x0020 || c.toNat = 0x00A0 || c.toNat = 0x1680 ||
  (0x2000 ≤ c.toNat && c.toNat ≤ 0x200A) || c.toNat = 0x2028 || c.toNat = 0x2029 ||
  c.toNat = 0x202F || c.toNat = 0x205F || c.toNat = 0x3000 || c.toNat = 0xFEFF

/-- `String.prototype.trim`: the string without its leading and its
trailing white space. -/
def trim (value : String) : String :=
  ⟨(value.data.dropWhile isWhiteSpace).rdropWhile isWhiteSpace⟩

/-- `searchWeather()`. The call of `loadForecast` is not awaited: it runs,
and a rejection of its promise is not `searchWeather`'s. -/
def searchWeather (net : Network) (s : State) : Completion Unit × State :=
  let cityInput := trim s.citySearch
  if cityInput = "" then
    (.normal (), showError "Please enter a city name" s)
  else
    match searchCity net cityInput (hideError s) with
    | (.throw error, s1) => (.throw error, s1)
    | (.normal none, s1) => (.normal (), showError "City not found. Try another name." s1)
    | (.normal (some cityData), s1) =>
      match fetchWeather net cityData.latitude cityData.longitude
          { s1 with currentCity := .location cityData } with
      | (.throw error, s2) => (.throw error, s2)
      | (.normal none, s2) => (.normal (), s2)
      | (.normal (some weather), s2) =>
        match displayCurrentWeather weather cityData s2 with
        | (.throw error, s3) => (.throw error, s3)
        | (.normal _, s3) =>
          (.normal (), (loadForecast net cityData.latitude cityData.longitude s3).2)

/-- The `keypress` listener that `setupEventListeners` puts on the search
box; the promise of `searchWeather` is dropped. -/
def keypress (net : Network) (key : String) (s : State) : State :=
  if key = "Enter" then (searchWeather net s).2 else s

/-- The `DOMContentLoaded` listener; the promise of `loadPopularCities` is
dropped. -/
def domContentLoaded (net : Network) (s : State) : State :=
  (loadPopularCities net POPULAR_CITIES s).2

/-! ## Reading an answer of the network

What `fetchWeather` makes of the answer to its request, as two functions of
the answer; `fetchWeather_eq` below proves that they say what it does. -/

/-- The value `fetchWeather` returns: the parsed body of a response with
`ok` set, and `null` otherwise. -/
def weatherOf (answer : Completion (HttpResponse (Option WeatherData))) : Option WeatherData :=
  match answer with
  | .throw _ => none
  | .normal response =>
    if response.ok then
      match response.json with
      | .normal data => data
      | .throw _ => none
    else none

/-- The reason `fetchWeather` reports, if it reports one: the message of
the network error, `HTTP` and the status of a response without `ok`, or the
message of the error of `json()`. -/
def failureOf (answer : Completion (HttpResponse (Option WeatherData))) : Option String :=
  match answer with
  | .throw error => some error.message
  | .normal response =>
    if response.ok then
      match response.json with
      | .normal _ => none
      | .throw error => some error.message
    else some ("HTTP " ++ toString response.status)

/-- The state `fetchWeather` leaves: the request and its settling are on
the trace, the spinner is hidden, and a reported reason is on the banner. -/
def afterFetchWeather (answer : Completion (HttpResponse (Option WeatherData)))
    (lat lon : Decimal) (s : State) : State :=
  let s1 : State :=
    { s with loadingSpinnerHidden := true,
             trace := s.trace ++ [Event.forecast lat lon, Event.settled] }
  match failureOf answer with
  | none => s1
  | some reason => showError ("Failed to load weather: " ++ reason) s1

/-- The value `searchCity` returns: the first element of `results` in the
parsed body of a response with `ok` set, and `null` otherwise. -/
def locationOf (answer : Completion (HttpResponse GeocodingBody)) : Option Location :=
  match answer with
  | .throw _ => none
  | .normal response =>
    if response.ok then
      match response.json with
      | .normal (.value (some results)) => (results[0]?).join
      | _ => none
    else none

/-! ## Sample inputs -/

/-- A network on which every request is answered with status 500. -/
def Network.serverError : Network :=
  { forecast := fun _ _ _ => .normal { ok := false, status := 500, json := .normal none },
    geocoding := fun _ _ => .normal { ok := false, status := 500, json := .normal .null } }

/-- A network on which every `fetch` rejects. -/
def Network.offline : Network :=
  { forecast := fun _ _ _ => .throw ⟨"Failed to fetch"⟩,
    geocoding := fun _ _ => .throw ⟨"Failed to fetch"⟩ }

/-- The page as loaded, with empty containers. -/
def State.fresh : State := State.initial (.message "") (.message "") (.message "")

/-- The geocoding result of the end-to-end scenario. -/
def paris : Location :=
  { name := "Paris", country := "France", latitude := ⟨488566, 4⟩, longitude := ⟨23522, 4⟩ }

/-- A network whose geocoding endpoint answers every query with `results`. -/
def Network.geocodes (results : Option (List (Option Location))) : Network :=
  { forecast := fun _ _ _ => .throw ⟨"Failed to fetch"⟩,
    geocoding := fun _ _ => .normal { ok := true, status := 200, json := .normal (.value results) } }

/-- A daily series of eight days. -/
def eightDays : Daily :=
  { time := some ["2024-05-01", "2024-05-02", "2024-05-03", "2024-05-04", "2024-05-05",
      "2024-05-06", "2024-05-07", "2024-05-08"],
    weathercode := some [0, 1, 2, 3, 45, 61, 95, 80],
    temperature_2m_max := some [⟨215, 1⟩, ⟨224, 1⟩, ⟨196, 1⟩, ⟨180, 1⟩, ⟨175, 1⟩, ⟨169, 1⟩,
      ⟨201, 1⟩, ⟨230, 1⟩],
    temperature_2m_min := some [⟨115, 1⟩, ⟨124, 1⟩, ⟨96, 1⟩, ⟨80, 1⟩, ⟨75, 1⟩, ⟨69, 1⟩,
      ⟨101, 1⟩, ⟨-5, 1⟩] }

/-- The page after a search stored `eightDays`. -/
def State.withEightDays : State := { State.fresh with forecastData := .series eightDays }

/-- A snapshot that tells the requests apart: the temperature is the trace
position `t` of the request it answers. -/
def sampleWeather (t : Nat) : WeatherData :=
  { current_weather := some
      { temperature := ⟨t, 0⟩, windspeed := ⟨35, 1⟩, winddirection := ⟨180, 0⟩,
        weathercode := 3 },
    daily := some eightDays }

/-- A network whose forecast endpoint answers the request issued at trace
position 4 with status 503 and every other one with `sampleWeather`. -/
def Network.thirdFails : Network :=
  { forecast := fun t _ _ =>
      if t = 4 then .normal { ok := false, status := 503, json := .normal none }
      else .normal { ok := true, status := 200, json := .normal (some (sampleWeather t)) },
    geocoding := fun _ _ => .throw ⟨"Failed to fetch"⟩ }

/-- The page with a blank, a tab, a no-break space and a blank typed into
the search box. -/
def State.blankInput : State := { State.fresh with citySearch := " \t\u00A0 " }

/-- The page with the query of the end-to-end scenario typed in. -/
def State.parisInput : State := { State.fresh with citySearch := " Paris " }

/-- A network that resolves every query to `paris` and answers every
forecast request with `sampleWeather`. -/
def Network.allFine : Network :=
  { forecast := fun t _ _ =>
      .normal { ok := true, status := 200, json := .normal (some (sampleWeather t)) },
    geocoding := fun _ _ =>
      .normal { ok := true, status := 200, json := .normal (.value (some [some paris])) } }

/-! # Properties -/

/-! ## Lemmas on single calls -/

/-- `fetchWeather` never throws: it returns `weatherOf` of the answer and
leaves the state `afterFetchWeather`. -/
theorem fetchWeather_eq (net : Network) (lat lon : Decimal) (s : State) :
    fetchWeather net lat lon s =
      (.normal (weatherOf (net.forecast s.trace.length lat lon)),
        afterFetchWeather (net.forecast s.trace.length lat lon) lat lon s) := by
  unfold fetchWeather fetchWeatherTry fetchForecast
  simp only [showLoading]
  cases h : net.forecast s.trace.length lat lon with
  | throw e => simp [weatherOf, failureOf, afterFetchWeather, showError, hideLoading]
  | normal r =>
    cases hok : r.ok with
    | false => simp [weatherOf, failureOf, afterFetchWeather, showError, hideLoading, hok]
    | true =>
      cases hj : r.json with
      | throw e => simp [weatherOf, failureOf, afterFetchWeather, showError, hideLoading, hok, hj]
      | normal d => simp [weatherOf, failureOf, afterFetchWeather, showError, hideLoading, hok, hj]

/-! ## The weather description table -/

/-- C1: `getWeatherDescription` is defined on every integer; each of the
seventeen known codes gives its entry of the table, and every other
integer, negative or however large, gives the fallback entry
`{ desc: 'Unknown', icon: '🌡️' }`. -/
theorem getWeatherDescription_total :
    (getWeatherDescription 0 = ⟨"Clear sky", "☀️"⟩ ∧
     getWeatherDescription 1 = ⟨"Mainly clear", "🌤️"⟩ ∧
     getWeatherDescription 2 = ⟨"Partly cloudy", "⛅"⟩ ∧
     getWeatherDescription 3 = ⟨"Overcast", "☁️"⟩ ∧
     getWeatherDescription 45 = ⟨"Foggy", "🌫️"⟩ ∧
     getWeatherDescription 48 = ⟨"Foggy", "🌫️"⟩ ∧
     getWeatherDescription 51 = ⟨"Light drizzle", "🌦️"⟩ ∧
     getWeatherDescription 53 = ⟨"Drizzle", "🌦️"⟩ ∧
     getWeatherDescription 55 = ⟨"Heavy drizzle", "🌧️"⟩ ∧
     getWeatherDescription 61 = ⟨"Light rain", "🌧️"⟩ ∧
     getWeatherDescription 63 = ⟨"Rain", "🌧️"⟩ ∧
     getWeatherDescription 65 = ⟨"Heavy rain", "⛈️"⟩ ∧
     getWeatherDescription 71 = ⟨"Light snow", "🌨️"⟩ ∧
     getWeatherDescription 73 = ⟨"Snow", "❄️"⟩ ∧
     getWeatherDescription 75 = ⟨"Heavy snow", "❄️"⟩ ∧
     getWeatherDescription 80 = ⟨"Rain showers", "🌦️"⟩ ∧
     getWeatherDescription 95 = ⟨"Thunderstorm", "⛈️"⟩) ∧
    ∀ code : Int,
      code ∉ [0, 1, 2, 3, 45, 48, 51, 53, 55, 61, 63, 65, 71, 73, 75, 80, 95] →
      getWeatherDescription code = ⟨"Unknown", "🌡️"⟩ := by
  refine ⟨by decide, ?_⟩
  intro code h
  simp only [List.mem_cons, List.mem_singleton, List.not_mem_nil, or_false, not_or] at h
  simp only [← ne_eq, ← beq_eq_false_iff_ne] at h
  obtain ⟨h0, h1, h2, h3, h45, h48, h51, h53, h55, h61, h63, h65, h71, h73, h75, h80, h95⟩ := h
  simp only [getWeatherDescription, weather, List.lookup, unknownWeather, h0, h1, h2, h3, h45,
    h48, h51, h53, h55, h61, h63, h65, h71, h73, h75, h80, h95]

/-- A negative code and a code beyond every table key give the fallback. -/
theorem getWeatherDescription_total_witness :
    getWeatherDescription (-1) = ⟨"Unknown", "🌡️"⟩ ∧
    getWeatherDescription (10 ^ 21) = ⟨"Unknown", "🌡️"⟩ :=
  ⟨getWeatherDescription_total.2 (-1) (by decide),
   getWeatherDescription_total.2 (10 ^ 21) (by decide)⟩

/-! ## Failures of `fetchWeather` -/

/-- C3: when the forecast request ends with a network exception or with a
response without success status, `fetchWeather` does not throw, returns
`null` and no snapshot, and shows the error banner with the text
`Failed to load weather: ` followed by the reason (the message of the
exception, or `HTTP` and the status). -/
theorem fetchWeather_failure (net : Network) (lat lon : Decimal) (s : State) :
    (∀ error : JSError, net.forecast s.trace.length lat lon = .throw error →
      (fetchWeather net lat lon s).1 = .normal none ∧
      (fetchWeather net lat lon s).2.errorAlertHidden = false ∧
      (fetchWeather net lat lon s).2.errorMessage =
        "Failed to load weather: " ++ error.message) ∧
    (∀ response : HttpResponse (Option WeatherData),
      net.forecast s.trace.length lat lon = .normal response → response.ok = false →
      (fetchWeather net lat lon s).1 = .normal none ∧
      (fetchWeather net lat lon s).2.errorAlertHidden = false ∧
      (fetchWeather net lat lon s).2.errorMessage =
        "Failed to load weather: " ++ ("HTTP " ++ toString response.status)) := by
  constructor
  · intro error h
    simp [fetchWeather_eq, h, weatherOf, failureOf, afterFetchWeather, showError]
  · intro response h hok
    simp [fetchWeather_eq, h, hok, weatherOf, failureOf, afterFetchWeather, showError]

/-- Status 500 for London: `null`, and the banner reads
`Failed to load weather: HTTP 500`. The network down: `null`, and the
banner carries the message of the exception. -/
theorem fetchWeather_failure_witness :
    ((fetchWeather Network.serverError ⟨515074, 4⟩ ⟨-1278, 4⟩ State.fresh).1 = .normal none ∧
     (fetchWeather Network.serverError ⟨515074, 4⟩ ⟨-1278, 4⟩ State.fresh).2.errorAlertHidden
      = false ∧
     (fetchWeather Network.serverError ⟨515074, 4⟩ ⟨-1278, 4⟩ State.fresh).2.errorMessage
      = "Failed to load weather: HTTP 500") ∧
    ((fetchWeather Network.offline ⟨515074, 4⟩ ⟨-1278, 4⟩ State.fresh).1 = .normal none ∧
     (fetchWeather Network.offline ⟨515074, 4⟩ ⟨-1278, 4⟩ State.fresh).2.errorAlertHidden
      = false ∧
     (fetchWeather Network.offline ⟨515074, 4⟩ ⟨-1278, 4⟩ State.fresh).2.errorMessage
      = "Failed to load weather: Failed to fetch") :=
  ⟨(fetchWeather_failure Network.serverError ⟨515074, 4⟩ ⟨-1278, 4⟩ State.fresh).2
    { ok := false, status := 500, json := .normal none } rfl rfl,
   (fetchWeather_failure Network.offline ⟨515074, 4⟩ ⟨-1278, 4⟩ State.fresh).1
    ⟨"Failed to fetch"⟩ rfl⟩

/-! ## Geocoding -/

/-- C4: when the geocoding response has success status, `searchCity`
returns the first element of `results` if `results` is present with at
least one element, and returns `null` if `results` is absent or an empty
array; in no case does it throw. -/
theorem searchCity_first_result (net : Network) (cityName : String) (s : State)
    (response : HttpResponse GeocodingBody)
    (h : net.geocoding s.trace.length cityName = .normal response)
    (hok : response.ok = true) :
    (∀ (first : Option Location) (rest : List (Option Location)),
      response.json = .normal (.value (some (first :: rest))) →
      (searchCity net cityName s).1 = .normal first) ∧
    (response.json = .normal (.value none) ∨ response.json = .normal (.value (some [])) →
      (searchCity net cityName s).1 = .normal none) ∧
    ∃ cityData, (searchCity net cityName s).1 = .normal cityData := by
  refine ⟨?_, ?_, ?_⟩
  · intro first rest hj
    simp [searchCity, searchCityTry, fetchGeocoding, h, hok, hj]
  · rintro (hj | hj) <;> simp [searchCity, searchCityTry, fetchGeocoding, h, hok, hj]
  · unfold searchCity
    cases searchCityTry net cityName s with
    | mk c s1 => cases c <;> exact ⟨_, rfl⟩

/-- One result for `Paris`: it is returned. An empty `results` array, and
no `results` at all: `null`. -/
theorem searchCity_first_result_witness :
    (searchCity (Network.geocodes (some [some paris])) "Paris" State.fresh).1
      = .normal (some paris) ∧
    (searchCity (Network.geocodes (some [])) "Atlantis" State.fresh).1 = .normal none ∧
    (searchCity (Network.geocodes none) "Atlantis" State.fresh).1 = .normal none :=
  ⟨(searchCity_first_result (Network.geocodes (some [some paris])) "Paris" State.fresh
    { ok := true, status := 200, json := .normal (.value (some [some paris])) } rfl rfl).1
    (some paris) [] rfl,
   (searchCity_first_result (Network.geocodes (some [])) "Atlantis" State.fresh
    { ok := true, status := 200, json := .normal (.value (some [])) } rfl rfl).2.1
    (Or.inr rfl),
   (searchCity_first_result (Network.geocodes none) "Atlantis" State.fresh
    { ok := true, status := 200, json := .normal (.value none) } rfl rfl).2.1
    (Or.inl rfl)⟩

/-! ## The forecast cards -/

/-- With the three arrays present, the `map` of `displayForecast` does not
fault and fills card `i` from index `i` of each array. -/
theorem dayCards_eq (forecastData : Daily) (codes : List Int) (maxs mins : List Decimal)
    (hc : forecastData.weathercode = some codes)
    (hmax : forecastData.temperature_2m_max = some maxs)
    (hmin : forecastData.temperature_2m_min = some mins) (days : List String) (index : Nat) :
    dayCards forecastData days index = .normal
      ((days.enumFrom index).map fun p =>
        { day := p.2,
          weatherInfo :=
            match codes[p.1]? with
            | some code => getWeatherDescription code
            | none => unknownWeather,
          max := (maxs[p.1]?).map mathRound,
          min := (mins[p.1]?).map mathRound }) := by
  induction days generalizing index with
  | nil => rfl
  | cons day days ih =>
    simp [dayCards, dayCard, hc, hmax, hmin, ih (index + 1)]

/-- C6: when the four arrays of the daily forecast have the same length
`n`, `displayForecast` does not fault and renders exactly `min n 7` cards;
for `i < min n 7` each array has an element `i` (no read is out of range)
and card `i` is built from those four elements. -/
theorem displayForecast_cards (s : State) (forecastData : Daily) (time : List String)
    (codes : List Int) (maxs mins : List Decimal)
    (hs : s.forecastData = .series forecastData)
    (ht : forecastData.time = some time)
    (hc : forecastData.weathercode = some codes)
    (hmax : forecastData.temperature_2m_max = some maxs)
    (hmin : forecastData.temperature_2m_min = some mins)
    (hlc : codes.length = time.length) (hlmax : maxs.length = time.length)
    (hlmin : mins.length = time.length) :
    ∃ cards : List DayCard,
      displayForecast s = (.normal (), { s with forecastContainer := .content cards }) ∧
      cards.length = min time.length 7 ∧
      ∀ i, i < min time.length 7 →
        ∃ day code tmax tmin,
          time[i]? = some day ∧ codes[i]? = some code ∧
          maxs[i]? = some tmax ∧ mins[i]? = some tmin ∧
          cards[i]? = some
            { day := day, weatherInfo := getWeatherDescription code,
              max := some (mathRound tmax), min := some (mathRound tmin) } := by
  have hd := dayCards_eq forecastData codes maxs mins hc hmax hmin (time.take 7) 0
  revert hd
  generalize List.map _ ((time.take 7).enumFrom 0) = cards
  intro hd
  have hcards := hd
  rw [dayCards_eq forecastData codes maxs mins hc hmax hmin (time.take 7) 0] at hcards
  injection hcards with hcards
  refine ⟨cards, ?_, ?_, ?_⟩
  · simp only [displayForecast, hs, ht, hd]
  · simp [← hcards, List.length_take, Nat.min_comm]
  · intro i hi
    have hit : i < time.length := lt_of_lt_of_le hi (Nat.min_le_left _ _)
    have hi7 : i < 7 := lt_of_lt_of_le hi (Nat.min_le_right _ _)
    refine ⟨time[i], codes[i], maxs[i], mins[i], ?_, ?_, ?_, ?_, ?_⟩
    · exact List.getElem?_eq_getElem hit
    · exact List.getElem?_eq_getElem (by omega)
    · exact List.getElem?_eq_getElem (by omega)
    · exact List.getElem?_eq_getElem (by omega)
    · have h1 : codes[i]? = some codes[i] := List.getElem?_eq_getElem (by omega)
      have h2 : maxs[i]? = some maxs[i] := List.getElem?_eq_getElem (by omega)
      have h3 : mins[i]? = some mins[i] := List.getElem?_eq_getElem (by omega)
      have h4 : (List.take 7 time)[i]? = some time[i] := by
        rw [List.getElem?_take_of_lt hi7]; exact List.getElem?_eq_getElem hit
      simp [← hcards, List.getElem?_map, List.getElem?_enumFrom, h1, h2, h3, h4]

/-- Eight days: seven cards, each from its own column of the four arrays. -/
theorem displayForecast_cards_witness :
    ∃ cards : List DayCard,
      displayForecast State.withEightDays
        = (.normal (), { State.withEightDays with forecastContainer := .content cards }) ∧
      cards.length = 7 ∧
      ∀ i, i < 7 →
        ∃ day code tmax tmin,
          ["2024-05-01", "2024-05-02", "2024-05-03", "2024-05-04", "2024-05-05",
            "2024-05-06", "2024-05-07", "2024-05-08"][i]? = some day ∧
          ([0, 1, 2, 3, 45, 61, 95, 80] : List Int)[i]? = some code ∧
          ([⟨215, 1⟩, ⟨224, 1⟩, ⟨196, 1⟩, ⟨180, 1⟩, ⟨175, 1⟩, ⟨169, 1⟩, ⟨201, 1⟩,
            ⟨230, 1⟩] : List Decimal)[i]? = some tmax ∧
          ([⟨115, 1⟩, ⟨124, 1⟩, ⟨96, 1⟩, ⟨80, 1⟩, ⟨75, 1⟩, ⟨69, 1⟩, ⟨101, 1⟩,
            ⟨-5, 1⟩] : List Decimal)[i]? = some tmin ∧
          cards[i]? = some
            { day := day, weatherInfo := getWeatherDescription code,
              max := some (mathRound tmax), min := some (mathRound tmin) } :=
  displayForecast_cards State.withEightDays eightDays _ _ _ _ rfl rfl rfl rfl rfl rfl rfl rfl

/-! ## The loop of `loadPopularCities` -/

/-- A `fetchWeather` adds its request and the settling of it to the trace. -/
theorem afterFetchWeather_trace (answer : Completion (HttpResponse (Option WeatherData)))
    (lat lon : Decimal) (s : State) :
    (afterFetchWeather answer lat lon s).trace
      = s.trace ++ [Event.forecast lat lon, Event.settled] := by
  unfold afterFetchWeather
  cases failureOf answer <;> rfl

/-- A `fetchWeather` writes no module variable, nor the search box, nor a
container. -/
theorem afterFetchWeather_frame (answer : Completion (HttpResponse (Option WeatherData)))
    (lat lon : Decimal) (s : State) :
    (afterFetchWeather answer lat lon s).currentCity = s.currentCity ∧
    (afterFetchWeather answer lat lon s).forecastData = s.forecastData ∧
    (afterFetchWeather answer lat lon s).citySearch = s.citySearch ∧
    (afterFetchWeather answer lat lon s).currentWeatherContainer = s.currentWeatherContainer ∧
    (afterFetchWeather answer lat lon s).forecastContainer = s.forecastContainer ∧
    (afterFetchWeather answer lat lon s).citiesContainer = s.citiesContainer := by
  unfold afterFetchWeather
  cases failureOf answer <;> simp [showError]

/-- The data the loop collects from `cities` when the first of them is
fetched at trace position `t`: successive requests are two events apart. -/
theorem loadPopularCitiesLoop_value (net : Network) (cities : List City)
    (citiesData : List CityData) (s : State) :
    (loadPopularCitiesLoop net cities citiesData s).1 = .normal
      (citiesData ++ cities.enum.filterMap fun p =>
        (weatherOf (net.forecast (s.trace.length + 2 * p.1) p.2.lat p.2.lon)).map
          fun data => { city := p.2, weather := data }) := by
  suffices h : ∀ (i t : Nat) (citiesData : List CityData) (s : State),
      s.trace.length = t + 2 * i →
      (loadPopularCitiesLoop net cities citiesData s).1 = .normal
        (citiesData ++ (cities.enumFrom i).filterMap fun p =>
          (weatherOf (net.forecast (t + 2 * p.1) p.2.lat p.2.lon)).map
            fun data => { city := p.2, weather := data }) by
    simpa [List.enum] using h 0 s.trace.length citiesData s rfl
  induction cities with
  | nil => intro i t citiesData s _; simp [loadPopularCitiesLoop]
  | cons city cities ih =>
    intro i t citiesData s hs
    have hlen : (afterFetchWeather (net.forecast (t + 2 * i) city.lat city.lon)
        city.lat city.lon s).trace.length = t + 2 * (i + 1) := by
      rw [afterFetchWeather_trace]; simp; omega
    simp only [loadPopularCitiesLoop, fetchWeather_eq, hs, List.enumFrom_cons,
      List.filterMap_cons]
    cases hw : weatherOf (net.forecast (t + 2 * i) city.lat city.lon) with
    | none => simp [ih (i + 1) t citiesData _ hlen]
    | some data => simp [ih (i + 1) t _ _ hlen]

/-- The loop issues one request per city, in order, each settled before the
next. -/
theorem loadPopularCitiesLoop_trace (net : Network) (cities : List City)
    (citiesData : List CityData) (s : State) :
    (loadPopularCitiesLoop net cities citiesData s).2.trace
      = s.trace ++ cities.flatMap fun city => [Event.forecast city.lat city.lon, Event.settled] := by
  induction cities generalizing citiesData s with
  | nil => simp [loadPopularCitiesLoop]
  | cons city cities ih =>
    simp only [loadPopularCitiesLoop, fetchWeather_eq]
    cases weatherOf (net.forecast s.trace.length city.lat city.lon) <;>
      simp [ih, afterFetchWeather_trace]

/-- The loop writes no module variable. -/
theorem loadPopularCitiesLoop_frame (net : Network) (cities : List City)
    (citiesData : List CityData) (s : State) :
    (loadPopularCitiesLoop net cities citiesData s).2.currentCity = s.currentCity ∧
    (loadPopularCitiesLoop net cities citiesData s).2.forecastData = s.forecastData := by
  induction cities generalizing citiesData s with
  | nil => simp [loadPopularCitiesLoop]
  | cons city cities ih =>
    simp only [loadPopularCitiesLoop, fetchWeather_eq]
    cases weatherOf (net.forecast s.trace.length city.lat city.lon) <;>
      simp [ih, afterFetchWeather_frame]

/-- The banner after one `fetchWeather`. -/
theorem afterFetchWeather_banner (answer : Completion (HttpResponse (Option WeatherData)))
    (lat lon : Decimal) (s : State) :
    (afterFetchWeather answer lat lon s).errorMessage =
      (match failureOf answer with
        | none => s.errorMessage
        | some reason => "Failed to load weather: " ++ reason) ∧
    (afterFetchWeather answer lat lon s).errorAlertHidden =
      (match failureOf answer with
        | none => s.errorAlertHidden
        | some _ => false) := by
  unfold afterFetchWeather
  cases failureOf answer <;> simp [showError]

/-- The banner after the loop: untouched when no fetch reported a failure,
else shown with the reason of the last fetch that did. -/
theorem loadPopularCitiesLoop_banner (net : Network) (cities : List City)
    (citiesData : List CityData) (s : State) :
    (loadPopularCitiesLoop net cities citiesData s).2.errorMessage =
      (match (cities.enum.filterMap fun p =>
          failureOf (net.forecast (s.trace.length + 2 * p.1) p.2.lat p.2.lon)).getLast? with
        | none => s.errorMessage
        | some reason => "Failed to load weather: " ++ reason) ∧
    (loadPopularCitiesLoop net cities citiesData s).2.errorAlertHidden =
      (match (cities.enum.filterMap fun p =>
          failureOf (net.forecast (s.trace.length + 2 * p.1) p.2.lat p.2.lon)).getLast? with
        | none => s.errorAlertHidden
        | some _ => false) := by
  suffices h : ∀ (i t : Nat) (citiesData : List CityData) (s : State),
      s.trace.length = t + 2 * i →
      (loadPopularCitiesLoop net cities citiesData s).2.errorMessage =
        (match ((cities.enumFrom i).filterMap fun p =>
            failureOf (net.forecast (t + 2 * p.1) p.2.lat p.2.lon)).getLast? with
          | none => s.errorMessage
          | some reason => "Failed to load weather: " ++ reason) ∧
      (loadPopularCitiesLoop net cities citiesData s).2.errorAlertHidden =
        (match ((cities.enumFrom i).filterMap fun p =>
            failureOf (net.forecast (t + 2 * p.1) p.2.lat p.2.lon)).getLast? with
          | none => s.errorAlertHidden
          | some _ => false) by
    simpa [List.enum] using h 0 s.trace.length citiesData s rfl
  induction cities with
  | nil => intro i t citiesData s _; simp [loadPopularCitiesLoop]
  | cons city cities ih =>
    intro i t citiesData s hs
    have hlen : (afterFetchWeather (net.forecast (t + 2 * i) city.lat city.lon)
        city.lat city.lon s).trace.length = t + 2 * (i + 1) := by
      rw [afterFetchWeather_trace]; simp; omega
    have hb := afterFetchWeather_banner (net.forecast (t + 2 * i) city.lat city.lon)
      city.lat city.lon s
    simp only [loadPopularCitiesLoop, fetchWeather_eq, hs, List.enumFrom_cons,
      List.filterMap_cons]
    cases hw : weatherOf (net.forecast (t + 2 * i) city.lat city.lon) <;>
    · simp only []
      rw [(ih (i + 1) t _ _ hlen).1, (ih (i + 1) t _ _ hlen).2, hb.1, hb.2]
      cases hf : failureOf (net.forecast (t + 2 * i) city.lat city.lon) with
      | none => simp
      | some r0 =>
        simp only [List.getLast?_cons]
        cases ((cities.enumFrom (i + 1)).filterMap fun p =>
          failureOf (net.forecast (t + 2 * p.1) p.2.lat p.2.lon)).getLast? <;> simp

/-- Rendering the cities touches only their container. -/
theorem displayCities_frame (cities : List CityData) (s : State) :
    (displayCities cities s).2.trace = s.trace ∧
    (displayCities cities s).2.errorMessage = s.errorMessage ∧
    (displayCities cities s).2.errorAlertHidden = s.errorAlertHidden ∧
    (displayCities cities s).2.currentCity = s.currentCity ∧
    (displayCities cities s).2.forecastData = s.forecastData := by
  unfold displayCities
  split
  · simp
  · cases cityCards cities <;> simp

/-- The loop of `loadPopularCities` ends normally, and `displayCities`
receives the cities whose fetch returned data. -/
theorem loadPopularCities_eq (net : Network) (cities : List City) (s : State) :
    loadPopularCities net cities s =
      displayCities
        (cities.enum.filterMap fun p =>
          (weatherOf (net.forecast (s.trace.length + 2 * p.1) p.2.lat p.2.lon)).map
            fun data => { city := p.2, weather := data })
        (loadPopularCitiesLoop net cities []
          { s with citiesContainer := .message "Loading popular cities..." }).2 := by
  have h := loadPopularCitiesLoop_value net cities []
    { s with citiesContainer := .message "Loading popular cities..." }
  unfold loadPopularCities
  revert h
  cases loadPopularCitiesLoop net cities []
    { s with citiesContainer := .message "Loading popular cities..." } with
  | mk c s1 =>
    intro h
    simp only [List.nil_append] at h
    subst h
    rfl

/-- C2: the array `citiesData` that the loop of `loadPopularCities` builds
and hands to `displayCities` holds exactly the cities for which
`fetchWeather` returned data, in input order, each with its own data; the
loop ends without an error. With five cities of which the third fails, the
array holds cities 1, 2, 4 and 5 in that order; when every fetch fails it is
empty and `loadPopularCities` ends normally, showing
`No city data available`. Here `weatherOf` of the answer to a request is
what `fetchWeather` returns for it (last part). -/
theorem loadPopularCities_citiesData (net : Network) (cities : List City) (s : State) :
    ((loadPopularCitiesLoop net cities []
        { s with citiesContainer := .message "Loading popular cities..." }).1 = .normal
      (cities.enum.filterMap fun p =>
        (weatherOf (net.forecast (s.trace.length + 2 * p.1) p.2.lat p.2.lon)).map
          fun data => { city := p.2, weather := data }) ∧
     loadPopularCities net cities s =
      displayCities
        (cities.enum.filterMap fun p =>
          (weatherOf (net.forecast (s.trace.length + 2 * p.1) p.2.lat p.2.lon)).map
            fun data => { city := p.2, weather := data })
        (loadPopularCitiesLoop net cities []
          { s with citiesContainer := .message "Loading popular cities..." }).2) ∧
    (∀ (c1 c2 c3 c4 c5 : City) (d1 d2 d4 d5 : WeatherData),
      cities = [c1, c2, c3, c4, c5] →
      weatherOf (net.forecast s.trace.length c1.lat c1.lon) = some d1 →
      weatherOf (net.forecast (s.trace.length + 2) c2.lat c2.lon) = some d2 →
      weatherOf (net.forecast (s.trace.length + 4) c3.lat c3.lon) = none →
      weatherOf (net.forecast (s.trace.length + 6) c4.lat c4.lon) = some d4 →
      weatherOf (net.forecast (s.trace.length + 8) c5.lat c5.lon) = some d5 →
      (loadPopularCitiesLoop net cities []
          { s with citiesContainer := .message "Loading popular cities..." }).1 = .normal
        [⟨c1, d1⟩, ⟨c2, d2⟩, ⟨c4, d4⟩, ⟨c5, d5⟩]) ∧
    ((∀ p ∈ cities.enum,
        weatherOf (net.forecast (s.trace.length + 2 * p.1) p.2.lat p.2.lon) = none) →
      (loadPopularCitiesLoop net cities []
          { s with citiesContainer := .message "Loading popular cities..." }).1 = .normal [] ∧
      (loadPopularCities net cities s).1 = .normal () ∧
      (loadPopularCities net cities s).2.citiesContainer
        = .message "No city data available") ∧
    (∀ (lat lon : Decimal) (s1 : State),
      (fetchWeather net lat lon s1).1
        = .normal (weatherOf (net.forecast s1.trace.length lat lon))) := by
  have hv := loadPopularCitiesLoop_value net cities []
    { s with citiesContainer := .message "Loading popular cities..." }
  simp only [List.nil_append] at hv
  refine ⟨⟨hv, loadPopularCities_eq net cities s⟩, ?_, ?_,
    fun lat lon s1 => by rw [fetchWeather_eq]⟩
  · intro c1 c2 c3 c4 c5 d1 d2 d4 d5 hc h1 h2 h3 h4 h5
    rw [hv, hc]
    simp [List.enum, List.enumFrom, List.filterMap_cons, h1, h2, h3, h4, h5]
  · intro hall
    have hnil : (cities.enum.filterMap fun p =>
        (weatherOf (net.forecast (s.trace.length + 2 * p.1) p.2.lat p.2.lon)).map
          fun data => ({ city := p.2, weather := data } : CityData)) = [] := by
      rw [List.filterMap_eq_nil_iff]
      intro p hp
      simp [hall p hp]
    rw [hv, loadPopularCities_eq, hnil]
    simp [displayCities]

/-- The first five popular cities, the third answered with status 503:
London, New York, Paris and Sydney remain, each with the data of its own
request. All ten popular cities with the network down: no city, no error. -/
theorem loadPopularCities_citiesData_witness :
    (loadPopularCitiesLoop Network.thirdFails (POPULAR_CITIES.take 5) []
        { State.fresh with citiesContainer := .message "Loading popular cities..." }).1
      = .normal
        [ ⟨⟨"London", ⟨515074, 4⟩, ⟨-1278, 4⟩, "UK"⟩, sampleWeather 0⟩,
          ⟨⟨"New York", ⟨407128, 4⟩, ⟨-740060, 4⟩, "USA"⟩, sampleWeather 2⟩,
          ⟨⟨"Paris", ⟨488566, 4⟩, ⟨23522, 4⟩, "France"⟩, sampleWeather 6⟩,
          ⟨⟨"Sydney", ⟨-338688, 4⟩, ⟨1512093, 4⟩, "Australia"⟩, sampleWeather 8⟩ ] ∧
    ((loadPopularCitiesLoop Network.offline POPULAR_CITIES []
        { State.fresh with citiesContainer := .message "Loading popular cities..." }).1
      = .normal [] ∧
     (loadPopularCities Network.offline POPULAR_CITIES State.fresh).1 = .normal () ∧
     (loadPopularCities Network.offline POPULAR_CITIES State.fresh).2.citiesContainer
      = .message "No city data available") :=
  ⟨(loadPopularCities_citiesData Network.thirdFails (POPULAR_CITIES.take 5) State.fresh).2.1
    _ _ _ _ _ _ _ _ _ rfl rfl rfl rfl rfl rfl,
   (loadPopularCities_citiesData Network.offline POPULAR_CITIES State.fresh).2.2.1
    (by decide)⟩

/-- C7 as stated fails: on page load with the request for the third
popular city answered by status 503 and all others by data,
`loadPopularCities` ends normally, and the error banner, hidden and empty
before, is shown with the reason of that one failure. -/
theorem loadPopularCities_failure_surfaced :
    State.fresh.errorAlertHidden = true ∧
    State.fresh.errorMessage = "" ∧
    (loadPopularCities Network.thirdFails POPULAR_CITIES State.fresh).1 = .normal () ∧
    (loadPopularCities Network.thirdFails POPULAR_CITIES State.fresh).2.errorAlertHidden
      = false ∧
    (loadPopularCities Network.thirdFails POPULAR_CITIES State.fresh).2.errorMessage
      = "Failed to load weather: HTTP 503" := by
  decide

/-- The `map` of `displayCities` faults exactly when a city has no
`current_weather`. -/
theorem cityCards_normal_iff (cities : List CityData) :
    (∃ cards, cityCards cities = .normal cards) ↔
      ∀ city ∈ cities, city.weather.current_weather ≠ none := by
  induction cities with
  | nil => simp [cityCards]
  | cons city cities ih =>
    cases hc : city.weather.current_weather with
    | none => simp [cityCards, cityCard, hc]
    | some current =>
      cases hr : cityCards cities with
      | throw error =>
        have hn : ¬ ∀ city ∈ cities, city.weather.current_weather ≠ none := by
          rw [← ih, hr]; simp
        simp only [List.mem_cons, forall_eq_or_imp, hc, ne_eq, not_false_eq_true,
          true_and, reduceCtorEq]
        simp only [ne_eq] at hn
        simp [cityCards, cityCard, hc, hr, hn]
      | normal cards =>
        have hy : ∀ city ∈ cities, city.weather.current_weather ≠ none := by
          rw [← ih, hr]; exact ⟨cards, rfl⟩
        simp only [ne_eq] at hy
        simp [cityCards, cityCard, hc, hr]
        exact hy

/-- `displayCities` throws exactly when a city it is given has no
`current_weather`. -/
theorem displayCities_normal_iff (cities : List CityData) (s : State) :
    (displayCities cities s).1 = .normal () ↔
      ∀ city ∈ cities, city.weather.current_weather ≠ none := by
  rw [← cityCards_normal_iff]
  unfold displayCities
  cases cities with
  | nil => simp [cityCards]
  | cons city cities => cases cityCards (city :: cities) <;> simp

/-- A request for which `fetchWeather` reports a failure gives no data. -/
theorem weatherOf_eq_none_of_failure
    (answer : Completion (HttpResponse (Option WeatherData))) (reason : String)
    (h : failureOf answer = some reason) : weatherOf answer = none := by
  unfold failureOf at h
  unfold weatherOf
  cases answer with
  | throw error => rfl
  | normal response =>
    cases hok : response.ok with
    | false => simp [hok]
    | true =>
      cases hj : response.json with
      | throw error => simp [hok, hj]
      | normal data => simp [hok, hj] at h

/-- C7, amended: a failed fetch never makes the loop of `loadPopularCities`
throw and never reaches the caller: the loop ends normally with exactly the
cities whose fetch returned data (a fetch that reported a failure returned
none, so its city is left out), `displayCities` receives them, and
`loadPopularCities` throws only when rendering faults on a kept city
without `current_weather`. But the failure is shown to the user: after
`loadPopularCities` the error banner is visible with
`Failed to load weather: ` and the reason of the last fetch that reported a
failure; when no fetch reported one, the banner is as before. Here
`weatherOf` and `failureOf` of the answer to a request are what
`fetchWeather` returns and the reason it puts on the banner for it, if any
(last part). -/
theorem loadPopularCities_banner (net : Network) (cities : List City) (s : State) :
    ((loadPopularCitiesLoop net cities []
        { s with citiesContainer := .message "Loading popular cities..." }).1 = .normal
      (cities.enum.filterMap fun p =>
        (weatherOf (net.forecast (s.trace.length + 2 * p.1) p.2.lat p.2.lon)).map
          fun data => { city := p.2, weather := data }) ∧
     loadPopularCities net cities s =
      displayCities
        (cities.enum.filterMap fun p =>
          (weatherOf (net.forecast (s.trace.length + 2 * p.1) p.2.lat p.2.lon)).map
            fun data => { city := p.2, weather := data })
        (loadPopularCitiesLoop net cities []
          { s with citiesContainer := .message "Loading popular cities..." }).2) ∧
    (∀ (answer : Completion (HttpResponse (Option WeatherData))) (reason : String),
      failureOf answer = some reason → weatherOf answer = none) ∧
    ((loadPopularCities net cities s).1 = .normal () ↔
      ∀ p ∈ cities.enum, ∀ data : WeatherData,
        weatherOf (net.forecast (s.trace.length + 2 * p.1) p.2.lat p.2.lon) = some data →
        data.current_weather ≠ none) ∧
    (loadPopularCities net cities s).2.errorMessage =
      (match (cities.enum.filterMap fun p =>
          failureOf (net.forecast (s.trace.length + 2 * p.1) p.2.lat p.2.lon)).getLast? with
        | none => s.errorMessage
        | some reason => "Failed to load weather: " ++ reason) ∧
    (loadPopularCities net cities s).2.errorAlertHidden =
      (match (cities.enum.filterMap fun p =>
          failureOf (net.forecast (s.trace.length + 2 * p.1) p.2.lat p.2.lon)).getLast? with
        | none => s.errorAlertHidden
        | some _ => false) ∧
    ((∀ p ∈ cities.enum,
        failureOf (net.forecast (s.trace.length + 2 * p.1) p.2.lat p.2.lon) = none) →
      (loadPopularCities net cities s).2.errorMessage = s.errorMessage ∧
      (loadPopularCities net cities s).2.errorAlertHidden = s.errorAlertHidden) ∧
    (∀ (lat lon : Decimal) (s1 : State),
      (fetchWeather net lat lon s1).1
        = .normal (weatherOf (net.forecast s1.trace.length lat lon)) ∧
      (fetchWeather net lat lon s1).2.errorMessage =
        (match failureOf (net.forecast s1.trace.length lat lon) with
          | none => s1.errorMessage
          | some reason => "Failed to load weather: " ++ reason) ∧
      (fetchWeather net lat lon s1).2.errorAlertHidden =
        (match failureOf (net.forecast s1.trace.length lat lon) with
          | none => s1.errorAlertHidden
          | some _ => false)) := by
  have hb := loadPopularCitiesLoop_banner net cities []
    { s with citiesContainer := .message "Loading popular cities..." }
  have hv := loadPopularCitiesLoop_value net cities []
    { s with citiesContainer := .message "Loading popular cities..." }
  simp only [List.nil_append] at hv
  have em : (loadPopularCities net cities s).2.errorMessage =
      (loadPopularCitiesLoop net cities []
        { s with citiesContainer := .message "Loading popular cities..." }).2.errorMessage := by
    rw [loadPopularCities_eq, (displayCities_frame _ _).2.1]
  have ea : (loadPopularCities net cities s).2.errorAlertHidden =
      (loadPopularCitiesLoop net cities []
        { s with citiesContainer := .message "Loading popular cities..." }).2.errorAlertHidden := by
    rw [loadPopularCities_eq, (displayCities_frame _ _).2.2.1]
  have hm := em.trans hb.1
  have ha := ea.trans hb.2
  refine ⟨⟨hv, loadPopularCities_eq net cities s⟩, weatherOf_eq_none_of_failure, ?_,
    hm, ha, ?_, ?_⟩
  · rw [loadPopularCities_eq, displayCities_normal_iff]
    simp only [List.mem_filterMap, Option.map_eq_some', ne_eq]
    constructor
    · intro h p hp data hd
      exact h ⟨p.2, data⟩ ⟨p, hp, data, hd, rfl⟩
    · rintro h city ⟨p, hp, data, hd, rfl⟩
      exact h p hp data hd
  · intro hall
    have hnil : (cities.enum.filterMap fun p =>
        failureOf (net.forecast (s.trace.length + 2 * p.1) p.2.lat p.2.lon)) = [] := by
      rw [List.filterMap_eq_nil_iff]
      intro p hp
      exact hall p hp
    rw [hm, ha, hnil]
    exact ⟨rfl, rfl⟩
  · intro lat lon s1
    rw [fetchWeather_eq]
    exact ⟨rfl, afterFetchWeather_banner _ lat lon s1⟩

/-- Page load with the third request answered by status 503: the loop ends
normally, `loadPopularCities` ends normally as every kept snapshot has
`current_weather`; with every request answered by data the banner stays
hidden and empty. -/
theorem loadPopularCities_banner_witness :
    (loadPopularCities Network.thirdFails POPULAR_CITIES State.fresh).1 = .normal () ∧
    ((loadPopularCities Network.allFine POPULAR_CITIES State.fresh).2.errorMessage = "" ∧
     (loadPopularCities Network.allFine POPULAR_CITIES State.fresh).2.errorAlertHidden
      = true) :=
  ⟨(loadPopularCities_banner Network.thirdFails POPULAR_CITIES State.fresh).2.2.1.mpr
    (by decide),
   (loadPopularCities_banner Network.allFine POPULAR_CITIES State.fresh).2.2.2.2.2.1
    (by decide)⟩

/-- C8: for a list of `N` cities, whatever the answers, `loadPopularCities`
adds to the trace exactly `N` forecast requests, one per city in input
order and with that city's coordinates, each settled before the next is
issued: no early exit after a failure and no second request for a city. -/
theorem loadPopularCities_requests (net : Network) (cities : List City) (s : State) :
    (loadPopularCities net cities s).2.trace
      = s.trace ++
        cities.flatMap fun city => [Event.forecast city.lat city.lon, Event.settled] := by
  rw [loadPopularCities_eq, (displayCities_frame _ _).1, loadPopularCitiesLoop_trace]

/-! ## Searching -/

/-- `searchCity` never throws: it returns `locationOf` of the answer, and
only the trace changes. -/
theorem searchCity_eq (net : Network) (cityName : String) (s : State) :
    searchCity net cityName s =
      (.normal (locationOf (net.geocoding s.trace.length cityName)),
        { s with trace := s.trace ++ [Event.geocoding cityName, Event.settled] }) := by
  unfold searchCity searchCityTry fetchGeocoding
  cases h : net.geocoding s.trace.length cityName with
  | throw e => simp [locationOf]
  | normal r =>
    cases hok : r.ok with
    | false => simp [locationOf, hok]
    | true =>
      cases hj : r.json with
      | throw e => simp [locationOf, hok, hj]
      | normal body =>
        cases body with
        | null => simp [locationOf, hok, hj]
        | value results =>
          cases results with
          | none => simp [locationOf, hok, hj]
          | some results =>
            cases results with
            | nil => simp [locationOf, hok, hj]
            | cons first rest => simp [locationOf, hok, hj]

/-- Rendering the forecast touches only its container. -/
theorem displayForecast_frame (s : State) :
    (displayForecast s).2.trace = s.trace ∧
    (displayForecast s).2.currentCity = s.currentCity ∧
    (displayForecast s).2.forecastData = s.forecastData ∧
    (displayForecast s).2.currentWeatherContainer = s.currentWeatherContainer ∧
    (displayForecast s).2.errorMessage = s.errorMessage ∧
    (displayForecast s).2.errorAlertHidden = s.errorAlertHidden := by
  unfold displayForecast
  repeat' split
  all_goals simp

/-- `loadForecast` by what its `fetchWeather` returned. -/
theorem loadForecast_eq (net : Network) (lat lon : Decimal) (s : State) :
    loadForecast net lat lon s =
      (match weatherOf (net.forecast s.trace.length lat lon) with
        | none => (.normal (), afterFetchWeather (net.forecast s.trace.length lat lon) lat lon s)
        | some data =>
          match data.daily with
          | none =>
            (.normal (), afterFetchWeather (net.forecast s.trace.length lat lon) lat lon s)
          | some daily =>
            displayForecast
              { afterFetchWeather (net.forecast s.trace.length lat lon) lat lon s with
                forecastData := .series daily }) := by
  unfold loadForecast
  rw [fetchWeather_eq]
  cases weatherOf (net.forecast s.trace.length lat lon) with
  | none => rfl
  | some data => cases hd : data.daily <;> simp [hd]

/-- A `loadForecast` issues exactly one forecast request. -/
theorem loadForecast_trace (net : Network) (lat lon : Decimal) (s : State) :
    (loadForecast net lat lon s).2.trace
      = s.trace ++ [Event.forecast lat lon, Event.settled] := by
  rw [loadForecast_eq]
  repeat' split
  all_goals simp [(displayForecast_frame _).1, afterFetchWeather_trace]

/-- A string of white space only trims to the empty string. -/
theorem trim_eq_empty (value : String) (h : ∀ c ∈ value.data, isWhiteSpace c = true) :
    trim value = "" := by
  have h1 : value.data.dropWhile isWhiteSpace = [] := List.dropWhile_eq_nil_iff.mpr h
  simp [trim, h1]

/-- A trimmed string has no white space left at either end. -/
theorem trim_idempotent (value : String) : trim (trim value) = trim value := by
  have h1 : List.dropWhile isWhiteSpace
        (List.rdropWhile isWhiteSpace (List.dropWhile isWhiteSpace value.data))
      = List.rdropWhile isWhiteSpace (List.dropWhile isWhiteSpace value.data) := by
    rw [List.dropWhile_eq_self_iff]
    intro hl
    have hpre : List.rdropWhile isWhiteSpace (List.dropWhile isWhiteSpace value.data)
        <+: List.dropWhile isWhiteSpace value.data := List.rdropWhile_prefix _ _
    have hlen : 0 < (List.dropWhile isWhiteSpace value.data).length :=
      lt_of_lt_of_le hl hpre.length_le
    have hget : (List.rdropWhile isWhiteSpace (List.dropWhile isWhiteSpace value.data)).get
          ⟨0, hl⟩
        = (List.dropWhile isWhiteSpace value.data).get ⟨0, hlen⟩ := by
      simpa using List.IsPrefix.getElem hpre hl
    rw [hget]
    exact List.dropWhile_get_zero_not isWhiteSpace value.data hlen
  simp only [trim, h1, List.rdropWhile_idempotent]

/-- Rendering the current conditions touches only their container. -/
theorem displayCurrentWeather_frame (data : WeatherData) (cityData : Location) (s : State) :
    (displayCurrentWeather data cityData s).2.trace = s.trace ∧
    (displayCurrentWeather data cityData s).2.currentCity = s.currentCity ∧
    (displayCurrentWeather data cityData s).2.forecastData = s.forecastData ∧
    (displayCurrentWeather data cityData s).2.forecastContainer = s.forecastContainer := by
  unfold displayCurrentWeather
  cases data.current_weather <;> simp

/-- The events one `searchWeather` adds to the trace hold no geocoding
request but one for the trimmed, non-empty input. -/
theorem searchWeather_trace (net : Network) (s : State) :
    ∃ events, (searchWeather net s).2.trace = s.trace ++ events ∧
      ∀ name, Event.geocoding name ∈ events →
        name = trim s.citySearch ∧ trim s.citySearch ≠ "" := by
  unfold searchWeather
  by_cases h : trim s.citySearch = ""
  · exact ⟨[], by simp [h, showError], by simp⟩
  · simp only [h, if_false, searchCity_eq, fetchWeather_eq]
    cases locationOf (net.geocoding (hideError s).trace.length (trim s.citySearch)) with
    | none =>
      exact ⟨[Event.geocoding (trim s.citySearch), Event.settled],
        by simp [showError, hideError], by simp [h]⟩
    | some cityData =>
      simp only []
      split
      · rename_i heq
        cases heq
      · rename_i s2 heq
        injection heq with _ heq
        refine ⟨[Event.geocoding (trim s.citySearch), Event.settled,
          Event.forecast cityData.latitude cityData.longitude, Event.settled], ?_, by simp [h]⟩
        simp [← heq, afterFetchWeather_trace, hideError]
      · rename_i weather s2 heq
        injection heq with _ heq
        have hs2 : s2.trace = s.trace ++ [Event.geocoding (trim s.citySearch), Event.settled,
            Event.forecast cityData.latitude cityData.longitude, Event.settled] := by
          simp [← heq, afterFetchWeather_trace, hideError]
        have hd := (displayCurrentWeather_frame weather cityData s2).1
        split
        · rename_i error s3 heq3
          rw [heq3] at hd
          exact ⟨_, hd.trans hs2, by simp [h]⟩
        · rename_i u s3 heq3
          rw [heq3] at hd
          simp only [] at hd
          refine ⟨[Event.geocoding (trim s.citySearch), Event.settled,
            Event.forecast cityData.latitude cityData.longitude, Event.settled,
            Event.forecast cityData.latitude cityData.longitude, Event.settled], ?_, by simp [h]⟩
          rw [loadForecast_trace, hd, hs2]
          simp

/-- C5: when the search box holds nothing but white space, `searchWeather`
only shows `Please enter a city name`: the trace gains no request, so
neither `searchCity` nor `fetchWeather` ran. Whatever the input, the only
geocoding request a `searchWeather` issues carries the trimmed input, which
is then non-empty, also after a further trim. -/
theorem searchWeather_validation (net : Network) (s : State) :
    ((∀ c ∈ s.citySearch.data, isWhiteSpace c = true) →
      searchWeather net s = (.normal (), showError "Please enter a city name" s) ∧
      (searchWeather net s).2.trace = s.trace ∧
      (searchWeather net s).2.errorAlertHidden = false ∧
      (searchWeather net s).2.errorMessage = "Please enter a city name") ∧
    ∃ events, (searchWeather net s).2.trace = s.trace ++ events ∧
      ∀ name, Event.geocoding name ∈ events →
        name = trim s.citySearch ∧ trim name ≠ "" := by
  constructor
  · intro h
    have ht := trim_eq_empty s.citySearch h
    simp [searchWeather, ht, showError]
  · obtain ⟨events, htrace, hev⟩ := searchWeather_trace net s
    refine ⟨events, htrace, fun name hn => ?_⟩
    obtain ⟨h1, h2⟩ := hev name hn
    refine ⟨h1, ?_⟩
    rw [h1, trim_idempotent]
    exact h2

/-- Blanks, a tab and a no-break space in the search box: the validation
message, and an empty trace. -/
theorem searchWeather_validation_witness :
    searchWeather Network.allFine State.blankInput
      = (.normal (), showError "Please enter a city name" State.blankInput) ∧
    (searchWeather Network.allFine State.blankInput).2.trace = [] ∧
    (searchWeather Network.allFine State.blankInput).2.errorAlertHidden = false ∧
    (searchWeather Network.allFine State.blankInput).2.errorMessage
      = "Please enter a city name" :=
  (searchWeather_validation Network.allFine State.blankInput).1 (by decide)

/-! ## One search, request by request -/

/-- C10: for a query that is non-empty after trimming, one `searchWeather`
issues one geocoding request; if it resolves a location and the forecast
endpoint answers with snapshots (the first with `current_weather`, the
second with `daily` and its four arrays), two forecast requests follow,
both with the resolved coordinates, the current-conditions view shows the
first response and the forecast view the first seven days of the second.
If geocoding resolves nothing, or the first forecast request fails, no
further request is issued and both views stay as they were. Here
`locationOf` and `weatherOf` of an answer are what `searchCity` and
`fetchWeather` return for it (`searchCity_eq`, `fetchWeather_eq`). -/
theorem searchWeather_requests (net : Network) (s : State) (hq : trim s.citySearch ≠ "") :
    (∀ (cityData : Location) (w1 w2 : WeatherData) (current : CurrentWeather) (daily : Daily)
        (time : List String) (codes : List Int) (maxs mins : List Decimal),
      locationOf (net.geocoding s.trace.length (trim s.citySearch)) = some cityData →
      weatherOf (net.forecast (s.trace.length + 2) cityData.latitude cityData.longitude)
        = some w1 →
      w1.current_weather = some current →
      weatherOf (net.forecast (s.trace.length + 4) cityData.latitude cityData.longitude)
        = some w2 →
      w2.daily = some daily → daily.time = some time → daily.weathercode = some codes →
      daily.temperature_2m_max = some maxs → daily.temperature_2m_min = some mins →
      (searchWeather net s).2.trace = s.trace ++
        [ Event.geocoding (trim s.citySearch), Event.settled,
          Event.forecast cityData.latitude cityData.longitude, Event.settled,
          Event.forecast cityData.latitude cityData.longitude, Event.settled ] ∧
      (searchWeather net s).2.currentWeatherContainer = .content
        { name := cityData.name, country := cityData.country,
          weatherInfo := getWeatherDescription current.weathercode,
          temperature := mathRound current.temperature, windspeed := current.windspeed,
          winddirection := current.winddirection } ∧
      (searchWeather net s).2.forecastContainer = .content
        ((time.take 7).enum.map fun p =>
          { day := p.2,
            weatherInfo :=
              match codes[p.1]? with
              | some code => getWeatherDescription code
              | none => unknownWeather,
            max := (maxs[p.1]?).map mathRound,
            min := (mins[p.1]?).map mathRound })) ∧
    (locationOf (net.geocoding s.trace.length (trim s.citySearch)) = none →
      (searchWeather net s).2.trace
        = s.trace ++ [Event.geocoding (trim s.citySearch), Event.settled] ∧
      (searchWeather net s).2.currentWeatherContainer = s.currentWeatherContainer ∧
      (searchWeather net s).2.forecastContainer = s.forecastContainer) ∧
    (∀ cityData : Location,
      locationOf (net.geocoding s.trace.length (trim s.citySearch)) = some cityData →
      weatherOf (net.forecast (s.trace.length + 2) cityData.latitude cityData.longitude)
        = none →
      (searchWeather net s).2.trace = s.trace ++
        [ Event.geocoding (trim s.citySearch), Event.settled,
          Event.forecast cityData.latitude cityData.longitude, Event.settled ] ∧
      (searchWeather net s).2.currentWeatherContainer = s.currentWeatherContainer ∧
      (searchWeather net s).2.forecastContainer = s.forecastContainer) := by
  refine ⟨?_, ?_, ?_⟩
  · intro cityData w1 w2 current daily time codes maxs mins hloc hw1 hcur hw2 hd ht hc hmax hmin
    have hcards := dayCards_eq daily codes maxs mins hc hmax hmin (time.take 7) 0
    simp only [searchWeather, hq, if_false, searchCity_eq, hideError, hloc, fetchWeather_eq,
      List.length_append, List.length_cons, List.length_nil, hw1, displayCurrentWeather, hcur,
      loadForecast_eq, afterFetchWeather_trace]
    have e4 : s.trace.length + (0 + 1 + 1) + (0 + 1 + 1) = s.trace.length + 4 := by omega
    simp only [e4, hw2, hd, displayForecast, ht, hcards]
    refine ⟨by simp, ?_, rfl⟩
    simp [(afterFetchWeather_frame _ _ _ _).2.2.2.1]
  · intro hloc
    simp [searchWeather, hq, searchCity_eq, hideError, hloc, showError]
  · intro cityData hloc hw1
    simp only [searchWeather, hq, if_false, searchCity_eq, hideError, hloc, fetchWeather_eq,
      List.length_append, List.length_cons, List.length_nil, hw1]
    refine ⟨by simp [afterFetchWeather_trace], ?_, ?_⟩
    · simp [(afterFetchWeather_frame _ _ _ _).2.2.2.1]
    · simp [(afterFetchWeather_frame _ _ _ _).2.2.2.2.1]

/-- The end-to-end scenario: `Paris` is geocoded once, the forecast is
requested twice for its coordinates, code 3 is shown as `Overcast`, and
seven of the eight days are listed. -/
theorem searchWeather_requests_witness :
    (searchWeather Network.allFine State.parisInput).2.trace =
      [ Event.geocoding "Paris", Event.settled,
        Event.forecast ⟨488566, 4⟩ ⟨23522, 4⟩, Event.settled,
        Event.forecast ⟨488566, 4⟩ ⟨23522, 4⟩, Event.settled ] ∧
    (searchWeather Network.allFine State.parisInput).2.currentWeatherContainer = .content
      { name := "Paris", country := "France", weatherInfo := ⟨"Overcast", "☁️"⟩,
        temperature := 2, windspeed := ⟨35, 1⟩, winddirection := ⟨180, 0⟩ } ∧
    (searchWeather Network.allFine State.parisInput).2.forecastContainer = .content
      [ ⟨"2024-05-01", ⟨"Clear sky", "☀️"⟩, some 22, some 12⟩,
        ⟨"2024-05-02", ⟨"Mainly clear", "🌤️"⟩, some 22, some 12⟩,
        ⟨"2024-05-03", ⟨"Partly cloudy", "⛅"⟩, some 20, some 10⟩,
        ⟨"2024-05-04", ⟨"Overcast", "☁️"⟩, some 18, some 8⟩,
        ⟨"2024-05-05", ⟨"Foggy", "🌫️"⟩, some 18, some 8⟩,
        ⟨"2024-05-06", ⟨"Light rain", "🌧️"⟩, some 17, some 7⟩,
        ⟨"2024-05-07", ⟨"Thunderstorm", "⛈️"⟩, some 20, some 10⟩ ] :=
  (searchWeather_requests Network.allFine State.parisInput (by decide)).1
    paris (sampleWeather 2) (sampleWeather 4)
    { temperature := ⟨2, 0⟩, windspeed := ⟨35, 1⟩, winddirection := ⟨180, 0⟩, weathercode := 3 }
    eightDays _ _ _ _ rfl rfl rfl rfl rfl rfl rfl rfl rfl

/-! ## The module variables -/

/-- A `loadForecast` writes neither `currentCity` nor the
current-conditions view. -/
theorem loadForecast_frame (net : Network) (lat lon : Decimal) (s : State) :
    (loadForecast net lat lon s).2.currentCity = s.currentCity ∧
    (loadForecast net lat lon s).2.currentWeatherContainer = s.currentWeatherContainer := by
  rw [loadForecast_eq]
  repeat' split
  all_goals simp [(displayForecast_frame _).2.1, (displayForecast_frame _).2.2.2.1,
    afterFetchWeather_frame]

/-- C9 as stated fails: `fetchWeather` returns a snapshot whose `daily` is
the eight-day series, and so do nine of the ten calls of
`loadPopularCities` on page load, yet `forecastData` is still the initial
`[]` afterwards, not that series. -/
theorem forecastData_not_overwritten :
    (fetchWeather Network.thirdFails ⟨515074, 4⟩ ⟨-1278, 4⟩ State.fresh).1
      = .normal (some (sampleWeather 0)) ∧
    (sampleWeather 0).daily = some eightDays ∧
    (fetchWeather Network.thirdFails ⟨515074, 4⟩ ⟨-1278, 4⟩ State.fresh).2.forecastData
      = .emptyArray ∧
    (loadPopularCities Network.thirdFails POPULAR_CITIES State.fresh).2.forecastData
      = .emptyArray ∧
    ForecastData.emptyArray ≠ .series eightDays := by
  decide

/-- C9, amended: `currentCity` is overwritten with the resolved location
after every successful geocoding lookup of `searchWeather`; `forecastData`
is overwritten with the `daily` object of a response only by
`loadForecast`, the second forecast request of a search, when that fetch
returns a snapshot with `daily`, and is left as it was when the snapshot
has no `daily`. `fetchWeather` itself, `loadPopularCities`, `searchCity`
and the three rendering functions write neither variable. A failed
geocoding lookup leaves both as they were, and a failed forecast fetch,
the first or the second of a search, leaves `forecastData` as it was, as
does a search that stops at a first snapshot without `current_weather`. Here `locationOf` and `weatherOf` of an answer are what
`searchCity` and `fetchWeather` return for it (`searchCity_eq`,
`fetchWeather_eq`). -/
theorem moduleVariables_overwritten (net : Network) (s : State) :
    (∀ cityData : Location, trim s.citySearch ≠ "" →
      locationOf (net.geocoding s.trace.length (trim s.citySearch)) = some cityData →
      (searchWeather net s).2.currentCity = .location cityData) ∧
    (∀ (cityData : Location) (w1 w2 : WeatherData) (current : CurrentWeather) (daily : Daily),
      trim s.citySearch ≠ "" →
      locationOf (net.geocoding s.trace.length (trim s.citySearch)) = some cityData →
      weatherOf (net.forecast (s.trace.length + 2) cityData.latitude cityData.longitude)
        = some w1 →
      w1.current_weather = some current →
      weatherOf (net.forecast (s.trace.length + 4) cityData.latitude cityData.longitude)
        = some w2 →
      w2.daily = some daily →
      (searchWeather net s).2.forecastData = .series daily) ∧
    (∀ (lat lon : Decimal) (data : WeatherData) (daily : Daily),
      weatherOf (net.forecast s.trace.length lat lon) = some data → data.daily = some daily →
      (loadForecast net lat lon s).2.forecastData = .series daily ∧
      (loadForecast net lat lon s).2.currentCity = s.currentCity) ∧
    (∀ lat lon : Decimal,
      (fetchWeather net lat lon s).2.currentCity = s.currentCity ∧
      (fetchWeather net lat lon s).2.forecastData = s.forecastData) ∧
    (∀ cities : List City,
      (loadPopularCities net cities s).2.currentCity = s.currentCity ∧
      (loadPopularCities net cities s).2.forecastData = s.forecastData) ∧
    (trim s.citySearch = "" ∨
        locationOf (net.geocoding s.trace.length (trim s.citySearch)) = none →
      (searchWeather net s).2.currentCity = s.currentCity ∧
      (searchWeather net s).2.forecastData = s.forecastData) ∧
    (∀ cityData : Location, trim s.citySearch ≠ "" →
      locationOf (net.geocoding s.trace.length (trim s.citySearch)) = some cityData →
      weatherOf (net.forecast (s.trace.length + 2) cityData.latitude cityData.longitude)
        = none →
      (searchWeather net s).2.forecastData = s.forecastData) ∧
    (∀ lat lon : Decimal, weatherOf (net.forecast s.trace.length lat lon) = none →
      (loadForecast net lat lon s).2.forecastData = s.forecastData ∧
      (loadForecast net lat lon s).2.currentCity = s.currentCity) ∧
    (∀ (lat lon : Decimal) (data : WeatherData),
      weatherOf (net.forecast s.trace.length lat lon) = some data → data.daily = none →
      (loadForecast net lat lon s).2.forecastData = s.forecastData ∧
      (loadForecast net lat lon s).2.currentCity = s.currentCity) ∧
    (∀ (cityData : Location) (w1 : WeatherData), trim s.citySearch ≠ "" →
      locationOf (net.geocoding s.trace.length (trim s.citySearch)) = some cityData →
      weatherOf (net.forecast (s.trace.length + 2) cityData.latitude cityData.longitude)
        = some w1 →
      w1.current_weather = none →
      (searchWeather net s).2.forecastData = s.forecastData) ∧
    (∀ (cityData : Location) (w1 : WeatherData) (current : CurrentWeather),
      trim s.citySearch ≠ "" →
      locationOf (net.geocoding s.trace.length (trim s.citySearch)) = some cityData →
      weatherOf (net.forecast (s.trace.length + 2) cityData.latitude cityData.longitude)
        = some w1 →
      w1.current_weather = some current →
      weatherOf (net.forecast (s.trace.length + 4) cityData.latitude cityData.longitude)
        = none →
      (searchWeather net s).2.forecastData = s.forecastData) ∧
    (∀ (cityData : Location) (w1 w2 : WeatherData) (current : CurrentWeather),
      trim s.citySearch ≠ "" →
      locationOf (net.geocoding s.trace.length (trim s.citySearch)) = some cityData →
      weatherOf (net.forecast (s.trace.length + 2) cityData.latitude cityData.longitude)
        = some w1 →
      w1.current_weather = some current →
      weatherOf (net.forecast (s.trace.length + 4) cityData.latitude cityData.longitude)
        = some w2 →
      w2.daily = none →
      (searchWeather net s).2.forecastData = s.forecastData) ∧
    ((∀ cityName : String,
        (searchCity net cityName s).2.currentCity = s.currentCity ∧
        (searchCity net cityName s).2.forecastData = s.forecastData) ∧
     (∀ (data : WeatherData) (cityData : Location),
        (displayCurrentWeather data cityData s).2.currentCity = s.currentCity ∧
        (displayCurrentWeather data cityData s).2.forecastData = s.forecastData) ∧
     ((displayForecast s).2.currentCity = s.currentCity ∧
      (displayForecast s).2.forecastData = s.forecastData) ∧
     (∀ cities : List CityData,
        (displayCities cities s).2.currentCity = s.currentCity ∧
        (displayCities cities s).2.forecastData = s.forecastData)) := by
  have e4 : s.trace.length + (0 + 1 + 1) + (0 + 1 + 1) = s.trace.length + 4 := by omega
  refine ⟨?_, ?_, ?_, ?_, ?_, ?_, ?_, ?_, ?_, ?_, ?_, ?_, ?_⟩
  · intro cityData hq hloc
    simp only [searchWeather, hq, if_false, searchCity_eq, hideError, hloc, fetchWeather_eq]
    split
    · rename_i heq
      cases heq
    · rename_i s2 heq
      injection heq with _ heq
      simp [← heq, afterFetchWeather_frame]
    · rename_i weather s2 heq
      injection heq with _ heq
      have hs2 : s2.currentCity = .location cityData := by
        simp [← heq, afterFetchWeather_frame]
      have hd := (displayCurrentWeather_frame weather cityData s2).2.1
      split
      · rename_i error s3 heq3
        rw [heq3] at hd
        exact hd.trans hs2
      · rename_i u s3 heq3
        rw [heq3] at hd
        rw [(loadForecast_frame _ _ _ _).1]
        exact hd.trans hs2
  · intro cityData w1 w2 current daily hq hloc hw1 hcur hw2 hd
    simp only [searchWeather, hq, if_false, searchCity_eq, hideError, hloc, fetchWeather_eq,
      List.length_append, List.length_cons, List.length_nil, hw1, displayCurrentWeather, hcur,
      loadForecast_eq, afterFetchWeather_trace]
    have e4 : s.trace.length + (0 + 1 + 1) + (0 + 1 + 1) = s.trace.length + 4 := by omega
    simp only [e4, hw2, hd, (displayForecast_frame _).2.2.1]
  · intro lat lon data daily hw hd
    simp [loadForecast_eq, hw, hd, (displayForecast_frame _).2.2.1, (displayForecast_frame _).2.1,
      afterFetchWeather_frame]
  · intro lat lon
    simp [fetchWeather_eq, afterFetchWeather_frame]
  · intro cities
    rw [loadPopularCities_eq, (displayCities_frame _ _).2.2.2.1,
      (displayCities_frame _ _).2.2.2.2, (loadPopularCitiesLoop_frame _ _ _ _).1,
      (loadPopularCitiesLoop_frame _ _ _ _).2]
    exact ⟨rfl, rfl⟩
  · rintro (hq | hloc)
    · simp [searchWeather, hq, showError]
    · by_cases hq : trim s.citySearch = ""
      · simp [searchWeather, hq, showError]
      · simp [searchWeather, hq, searchCity_eq, hideError, hloc, showError]
  · intro cityData hq hloc hw1
    simp [searchWeather, hq, searchCity_eq, hideError, hloc, fetchWeather_eq, hw1,
      afterFetchWeather_frame]
  · intro lat lon hw
    simp [loadForecast_eq, hw, afterFetchWeather_frame]
  · intro lat lon data hw hd
    simp [loadForecast_eq, hw, hd, afterFetchWeather_frame]
  · intro cityData w1 hq hloc hw1 hcur
    simp [searchWeather, hq, searchCity_eq, hideError, hloc, fetchWeather_eq, hw1,
      displayCurrentWeather, hcur, afterFetchWeather_frame]
  · intro cityData w1 current hq hloc hw1 hcur hw2
    simp only [searchWeather, hq, if_false, searchCity_eq, hideError, hloc, fetchWeather_eq,
      List.length_append, List.length_cons, List.length_nil, hw1, displayCurrentWeather, hcur,
      loadForecast_eq, afterFetchWeather_trace]
    simp only [e4, hw2]
    simp [afterFetchWeather_frame]
  · intro cityData w1 w2 current hq hloc hw1 hcur hw2 hd
    simp only [searchWeather, hq, if_false, searchCity_eq, hideError, hloc, fetchWeather_eq,
      List.length_append, List.length_cons, List.length_nil, hw1, displayCurrentWeather, hcur,
      loadForecast_eq, afterFetchWeather_trace]
    simp only [e4, hw2, hd]
    simp [afterFetchWeather_frame]
  · refine ⟨fun cityName => ?_, fun data cityData => ?_, ?_, fun cities => ?_⟩
    · simp [searchCity_eq]
    · exact ⟨(displayCurrentWeather_frame data cityData s).2.1,
        (displayCurrentWeather_frame data cityData s).2.2.1⟩
    · exact ⟨(displayForecast_frame s).2.1, (displayForecast_frame s).2.2.1⟩
    · exact ⟨(displayCities_frame cities s).2.2.2.1, (displayCities_frame cities s).2.2.2.2⟩

/-- The end-to-end scenario: after the search, `currentCity` is the
location resolved for `Paris` and `forecastData` is the `daily` object of
the second forecast response. -/
theorem moduleVariables_overwritten_witness :
    (searchWeather Network.allFine State.parisInput).2.currentCity = .location paris ∧
    (searchWeather Network.allFine State.parisInput).2.forecastData = .series eightDays :=
  ⟨(moduleVariables_overwritten Network.allFine State.parisInput).1 paris (by decide) rfl,
   (moduleVariables_overwritten Network.allFine State.parisInput).2.1 paris
     (sampleWeather 2) (sampleWeather 4)
     { temperature := ⟨2, 0⟩, windspeed := ⟨35, 1⟩, winddirection := ⟨180, 0⟩, weathercode := 3 }
     eightDays (by decide) rfl rfl rfl rfl rfl⟩

end App
